import Mathlib

/-!
Shallow embedding of the incremental traffic-data ingestion and merge
pipeline of the Traffic-Analysis-Kortrijk repository
(src/fetch_telraam_data.py, src/weather_integration.py,
src/calendar_integration.py).

Timestamps are modelled as natural numbers: minutes since the instant
2025-01-01 00:00 UTC.  A tz-naive wall-clock value is likewise a number
of minutes since the wall-clock label 2025-01-01 00:00 in the relevant
clock; for a naive UTC value this number coincides with the instant.
Dates (day granularity) are numbers of days since 2025-01-01.
-/

namespace Kortrijk

/-! ### Civil date arithmetic (days since 2025-01-01) -/

def isLeap (y : Nat) : Bool :=
  y % 4 == 0 && (y % 100 != 0 || y % 400 == 0)

def daysInYear (y : Nat) : Nat := if isLeap y then 366 else 365

/-- Days in the years 2025, ..., 2025+n-1. -/
def daysOfYearsFrom2025 : Nat → Nat
  | 0 => 0
  | n + 1 => daysOfYearsFrom2025 n + daysInYear (2025 + n)

def daysBeforeYear (y : Nat) : Nat := daysOfYearsFrom2025 (y - 2025)

def monthDays (y m : Nat) : Nat :=
  match m with
  | 1 => 31 | 2 => if isLeap y then 29 else 28 | 3 => 31 | 4 => 30
  | 5 => 31 | 6 => 30 | 7 => 31 | 8 => 31
  | 9 => 30 | 10 => 31 | 11 => 30 | _ => 31

def daysBeforeMonth (y : Nat) : Nat → Nat
  | 0 => 0
  | 1 => 0
  | m + 1 => daysBeforeMonth y m + monthDays y m

/-- Day number of a civil date y-m-d, counted from 2025-01-01 = day 0. -/
def daysFromCivil (y m d : Nat) : Nat :=
  daysBeforeYear y + daysBeforeMonth y m + (d - 1)

/-- Minutes since the epoch instant for the UTC wall-clock y-m-d hh:mm. -/
def utcMinutes (y m d hh mm : Nat) : Nat :=
  daysFromCivil y m d * 1440 + hh * 60 + mm

/-! ### Europe/Brussels timezone (tz database rules for 2025-2026)

The pipeline's configured timezone is `TIMEZONE = "Europe/Brussels"`
(src/weather_integration.py).  Its UTC offset is +60 minutes (CET),
or +120 minutes (CEST) between the last Sundays of March and October,
switching at 01:00 UTC.  The project's data lives in 2025-2026, so the
four relevant transitions are embedded explicitly. -/

def dstStart2025 : Nat := utcMinutes 2025 3 30 1 0
def dstEnd2025 : Nat := utcMinutes 2025 10 26 1 0
def dstStart2026 : Nat := utcMinutes 2026 3 29 1 0
def dstEnd2026 : Nat := utcMinutes 2026 10 25 1 0

/-- UTC offset, in minutes, of Europe/Brussels at the instant `t`. -/
def brusselsOffset (t : Nat) : Nat :=
  if (dstStart2025 ≤ t && t < dstEnd2025) || (dstStart2026 ≤ t && t < dstEnd2026)
  then 120 else 60

/-- Local (Europe/Brussels) wall-clock value of the instant `t`. -/
def utcToLocal (t : Nat) : Nat := t + brusselsOffset t

/-- Pandas `Series.dt.tz_localize("UTC")` on a naive value: the value is
read as UTC wall clock, so the denoted instant equals the value itself. -/
def localizeUTC (naive : Nat) : Nat := naive

/-- Whether a candidate instant `t` has the given Brussels wall-clock
value under the offset in force at `t`. -/
def candValid (t naive : Nat) : Bool := utcToLocal t == naive

/-- A naive local value is ambiguous when both the CET and the CEST
reading give a consistent instant (the repeated hour at fall-back). -/
def ambiguousLocal (naive : Nat) : Bool :=
  (60 ≤ naive && candValid (naive - 60) naive) &&
  (120 ≤ naive && candValid (naive - 120) naive)

/-- Pandas `Series.dt.tz_localize("Europe/Brussels")` on a naive value, with the
pandas defaults ambiguous="raise" and nonexistent="raise": the unique
instant whose local wall clock is `naive`, or `none` when the value is
ambiguous (AmbiguousTimeError) or nonexistent (NonExistentTimeError). -/
def localizeBrussels (naive : Nat) : Option Nat :=
  let v1 := 60 ≤ naive && candValid (naive - 60) naive
  let v2 := 120 ≤ naive && candValid (naive - 120) naive
  if v1 && v2 then none
  else if v1 then some (naive - 60)
  else if v2 then some (naive - 120)
  else none

/-! ### Incremental sync engine (src/fetch_telraam_data.py) -/

/-- The constant `PROJECT_START = datetime(2025, 11, 1, 0, 0, tzinfo=timezone.utc)`. -/
def projectStart : Nat := utcMinutes 2025 11 1 0 0

/-- Maximum of a list of timestamps, as `pd.to_datetime(col).max()`. -/
def maxTs (l : List Nat) : Nat := l.foldl Nat.max 0

/-- The function `get_time_window(existing_df)`.  The store's timestamp column is
`none` when the dataframe is empty or has no `date` column, otherwise the
list of its timestamps (possibly empty).  `now` is the current UTC
wall-clock time in minutes; `(None, None)` becomes `none`. -/
def get_time_window (tsCol : Option (List Nat)) (now : Nat) : Option (Nat × Nat) :=
  let start :=
    match tsCol with
    | some (t :: ts) => maxTs (t :: ts) + 60
    | _ => projectStart
  let stop := now - now % 60
  if stop ≤ start then none else some (start, stop)

/-- One upstream answer to `requests.post` inside `fetch_segment`:
HTTP 429; a successful report (possibly empty); a non-429 error status
(`raise_for_status` raises `HTTPError`); or a timeout / connection error
(`requests` raises a `RequestException` subclass such as `Timeout`). -/
inductive UpstreamResp (α : Type) where
  | rate429 : UpstreamResp α
  | success : List α → UpstreamResp α
  | httpError : UpstreamResp α
  | timeout : UpstreamResp α
deriving DecidableEq, Repr

/-- Observable outcome of `fetch_segment`: how many HTTP calls were
issued, the `time.sleep` durations in seconds in order, and the rows of
the returned dataframe (empty on give-up or error). -/
structure FetchOutcome (α : Type) where
  calls : Nat
  waits : List Nat
  rows : List α
deriving DecidableEq, Repr

/-- The retry loop of `fetch_segment`: `attempt` is the 1-based loop
counter, `remaining` the number of iterations left.  A 429 sleeps
`5 * attempt` seconds and continues; any `RequestException` (timeout,
connection error, or the `HTTPError` from `raise_for_status`) is caught
and an empty dataframe is returned; an empty report also returns an
empty dataframe. -/
def fetchGo (resp : Nat → UpstreamResp α) (attempt calls : Nat)
    (waits : List Nat) : Nat → FetchOutcome α
  | 0 => ⟨calls, waits.reverse, []⟩
  | remaining + 1 =>
    match resp attempt with
    | .rate429 => fetchGo resp (attempt + 1) (calls + 1) (5 * attempt :: waits) remaining
    | .success data => ⟨calls + 1, waits.reverse, data⟩
    | .httpError => ⟨calls + 1, waits.reverse, []⟩
    | .timeout => ⟨calls + 1, waits.reverse, []⟩

/-- The function `fetch_segment(segment_id, start, end, max_retries)`, abstracted over
the sequence of upstream responses (`resp n` answers the n-th call). -/
def fetch_segment (resp : Nat → UpstreamResp α) (maxRetries : Nat) : FetchOutcome α :=
  fetchGo resp 1 0 [] maxRetries

/-- One row of a per-segment store: an hourly observation with its
timestamp (the `date` column) and its count payload. -/
structure SegRow where
  date : Nat
  car : Nat
deriving DecidableEq, Repr

/-- The step `combined.drop_duplicates(subset=[TS_COL], inplace=True)` with the
pandas default `keep="first"`: the first row of each timestamp stays. -/
def dropDupByDate (seen : List Nat) : List SegRow → List SegRow
  | [] => []
  | r :: rs =>
    if r.date ∈ seen then dropDupByDate seen rs
    else r :: dropDupByDate (r.date :: seen) rs

/-- Comparison used to sort a per-segment store by its `date` column. -/
def dateLE (a b : SegRow) : Prop := a.date ≤ b.date

instance : DecidableRel dateLE := fun a b => Nat.decLe a.date b.date

instance : IsTotal SegRow dateLE := ⟨fun a b => Nat.le_total a.date b.date⟩

instance : IsTrans SegRow dateLE := ⟨fun _ _ _ h1 h2 => Nat.le_trans h1 h2⟩

/-- The step `combined.sort_values(TS_COL, inplace=True)`: ascending by date. -/
def sortByDate (l : List SegRow) : List SegRow := List.insertionSort dateLE l

/-- The function `update_segment(segment_id, name)`: reads the existing store, picks
the window, fetches, deduplicates, sorts and rewrites the store.  Returns
the new store contents together with the Python return value, which is
`None` on every path (modelled as `none : Option Nat`). -/
def update_segment (existing : List SegRow) (resp : Nat → UpstreamResp SegRow)
    (now : Nat) : List SegRow × Option Nat :=
  match get_time_window (some (existing.map (·.date))) now with
  | none => (existing, none)
  | some _ =>
    if (fetch_segment resp 3).rows = [] then (existing, none)
    else (sortByDate (dropDupByDate [] (existing ++ (fetch_segment resp 3).rows)), none)

/-! ### Merge/integration pipeline (src/weather_integration.py) -/

/-- One traffic row entering the merge: the `date` key and the `car`
count (`None` models a NaN cell in the traffic CSV). -/
structure TrafficRow where
  date : Nat
  car : Option Nat
deriving DecidableEq, Repr

/-- One weather row entering the merge: the `date` key, temperature in
tenths of a degree, and precipitation in tenths of a millimetre. -/
structure WeatherRow where
  date : Nat
  temperature_c : Int
  precipitation_mm : Nat
deriving DecidableEq, Repr

/-- One merged row: the traffic row together with the matched weather
row, or `none` when the left join found no weather for that hour (all
weather columns NaN). -/
structure MergedRow where
  traffic : TrafficRow
  weather : Option WeatherRow
deriving DecidableEq, Repr

/-- An exception escaping `merge_traffic_weather`: pytz's
`AmbiguousTimeError`/`NonExistentTimeError` from `tz_localize`, or
pandas' `MergeError` from `validate="1:1"`. -/
inductive MergeExc where
  | ambiguousTime : MergeExc
  | mergeErr : MergeExc
deriving DecidableEq, Repr

/-- The left join of `pd.merge(traffic, weather, on="date", how="left")`:
every traffic row in order; a copy per matching weather row, or a single
row with NaN weather columns when nothing matches. -/
def leftJoinTW (weather : List WeatherRow) : List TrafficRow → List MergedRow
  | [] => []
  | t :: ts =>
    (match weather.filter (fun w => w.date == t.date) with
     | [] => [⟨t, none⟩]
     | ms => ms.map (fun m => ⟨t, some m⟩)) ++ leftJoinTW weather ts

/-- The step `weather_df["date"].dt.tz_localize(TIMEZONE)` over a whole
naive weather column: the first ambiguous or nonexistent value raises. -/
def localizeWeatherRows : List WeatherRow → Except MergeExc (List WeatherRow)
  | [] => .ok []
  | w :: ws =>
    match localizeBrussels w.date with
    | none => .error MergeExc.ambiguousTime
    | some inst =>
      match localizeWeatherRows ws with
      | .error e => .error e
      | .ok ws' => .ok ({ w with date := inst } :: ws')

/-- The function `merge_traffic_weather(traffic_df, weather_df)`.  `trafficTz`
and `weatherTz` say whether each `date` column is already tz-aware; a naive
traffic column is localized as UTC, a naive weather column as
Europe/Brussels (possibly raising), both are converted to
Europe/Brussels (identity on the denoted instant), and the 1:1-validated
left merge requires the key to be unique on both sides. -/
def merge_traffic_weather (trafficTz weatherTz : Bool)
    (traffic : List TrafficRow) (weather : List WeatherRow) :
    Except MergeExc (List MergedRow) :=
  let traffic' := if trafficTz then traffic
    else traffic.map (fun t => { t with date := localizeUTC t.date })
  match (if weatherTz then .ok weather else localizeWeatherRows weather) with
  | .error e => .error e
  | .ok weather' =>
    if (traffic'.map (·.date)).Nodup ∧ (weather'.map (·.date)).Nodup then
      .ok (leftJoinTW weather' traffic')
    else .error MergeExc.mergeErr

/-- Count of rows marked by `df.duplicated(subset=["date"])`: rows whose
date already occurred earlier. -/
def dupDateCount (seen : List Nat) : List MergedRow → Nat
  | [] => 0
  | r :: rs =>
    if r.traffic.date ∈ seen then 1 + dupDateCount seen rs
    else dupDateCount (r.traffic.date :: seen) rs

/-- The validation dictionary built by `validate_merged_data`. -/
structure ValidationReport where
  total_records : Nat
  date_min : Option Nat
  date_max : Option Nat
  missing_weather : Nat
  missing_traffic : Nat
  duplicate_dates : Nat
  temperature_min : Option Int
  temperature_max : Option Int
  precipitation_days : Nat
deriving DecidableEq, Repr

/-- The function `validate_merged_data(df)`: computes diagnostics only, never fails
and never mutates the dataframe. -/
def validate_merged_data (df : List MergedRow) : ValidationReport where
  total_records := df.length
  date_min := (df.map (·.traffic.date)).min?
  date_max := (df.map (·.traffic.date)).max?
  missing_weather := (df.filter (fun r => r.weather.isNone)).length
  missing_traffic := (df.filter (fun r => r.traffic.car.isNone)).length
  duplicate_dates := dupDateCount [] df
  temperature_min := ((df.filterMap (·.weather)).map (·.temperature_c)).min?
  temperature_max := ((df.filterMap (·.weather)).map (·.temperature_c)).max?
  precipitation_days :=
    (df.filter (fun r => match r.weather with
      | some w => 0 < w.precipitation_mm
      | none => false)).length

/-! ### Calendar enricher (src/calendar_integration.py)

Holiday dates and vacation-range bounds are day numbers via
`daysFromCivil`; apostrophes in two holiday labels are elided. -/

def BELGIAN_HOLIDAYS_2025_2026 : List (Nat × String) := [
  (daysFromCivil 2025 1 1, "New Years Day"),
  (daysFromCivil 2025 4 21, "Easter Monday"),
  (daysFromCivil 2025 5 1, "Labour Day"),
  (daysFromCivil 2025 5 29, "Ascension Day"),
  (daysFromCivil 2025 6 9, "Whit Monday"),
  (daysFromCivil 2025 7 21, "Belgian National Day"),
  (daysFromCivil 2025 8 15, "Assumption of Mary"),
  (daysFromCivil 2025 11 1, "All Saints Day"),
  (daysFromCivil 2025 11 11, "Armistice Day"),
  (daysFromCivil 2025 12 25, "Christmas Day"),
  (daysFromCivil 2026 1 1, "New Years Day"),
  (daysFromCivil 2026 4 6, "Easter Monday"),
  (daysFromCivil 2026 5 1, "Labour Day"),
  (daysFromCivil 2026 5 14, "Ascension Day"),
  (daysFromCivil 2026 5 25, "Whit Monday"),
  (daysFromCivil 2026 7 21, "Belgian National Day"),
  (daysFromCivil 2026 8 15, "Assumption of Mary"),
  (daysFromCivil 2026 11 1, "All Saints Day"),
  (daysFromCivil 2026 11 11, "Armistice Day"),
  (daysFromCivil 2026 12 25, "Christmas Day")]

def SCHOOL_VACATIONS_2025_2026 : List (Nat × Nat × String) := [
  (daysFromCivil 2025 2 24, daysFromCivil 2025 3 2, "Carnival Break"),
  (daysFromCivil 2025 4 14, daysFromCivil 2025 4 27, "Easter Break"),
  (daysFromCivil 2025 7 1, daysFromCivil 2025 8 31, "Summer Break"),
  (daysFromCivil 2025 11 3, daysFromCivil 2025 11 9, "Autumn Break"),
  (daysFromCivil 2025 12 22, daysFromCivil 2026 1 5, "Christmas Break"),
  (daysFromCivil 2026 2 16, daysFromCivil 2026 2 22, "Carnival Break"),
  (daysFromCivil 2026 4 6, daysFromCivil 2026 4 19, "Easter Break"),
  (daysFromCivil 2026 7 1, daysFromCivil 2026 8 31, "Summer Break")]

/-- The function `create_holidays_dataframe()`: one row per listed holiday date. -/
def create_holidays_dataframe : List (Nat × String) := BELGIAN_HOLIDAYS_2025_2026

/-- The `while current <= end` loop: one row per day of an inclusive
vacation range. -/
def expandVacation (s e : Nat) (name : String) : List (Nat × String) :=
  (List.range (e + 1 - s)).map (fun i => (s + i, name))

/-- The function `create_school_vacations_dataframe()`: every range expanded
into one flag row per day. -/
def create_school_vacations_dataframe : List (Nat × String) :=
  (SCHOOL_VACATIONS_2025_2026.map (fun v => expandVacation v.1 v.2.1 v.2.2)).flatten

/-- The helper column `traffic_df["date"].dt.date` on the merged frame, whose
`date` column is tz-aware Europe/Brussels: the local calendar day. -/
def dateOnly (r : MergedRow) : Nat := utcToLocal r.traffic.date / 1440

/-- The first left merge of `add_calendar_features_to_traffic`, on
`date_only` against the holiday table: a copy of the row per matching
holiday row (its `holiday_name` attached), or one row with NaN. -/
def mergeHolidays : List MergedRow → List (MergedRow × Option String)
  | [] => []
  | r :: rs =>
    (match create_holidays_dataframe.filter (fun h => h.1 == dateOnly r) with
     | [] => [(r, none)]
     | ms => ms.map (fun m => (r, some m.2))) ++ mergeHolidays rs

/-- The second left merge, against the expanded vacation-day table. -/
def mergeVacations : List (MergedRow × Option String) →
    List (MergedRow × Option String × Option String)
  | [] => []
  | r :: rs =>
    (match create_school_vacations_dataframe.filter (fun v => v.1 == dateOnly r.1) with
     | [] => [(r.1, r.2, none)]
     | ms => ms.map (fun m => (r.1, r.2, some m.2))) ++ mergeVacations rs

/-- One output row of the calendar enrichment, after the `fillna` steps:
missing flags become `false`, missing names the empty string. -/
structure EnrichedRow where
  base : MergedRow
  holiday_name : String
  is_holiday : Bool
  vacation_name : String
  is_school_vacation : Bool
deriving DecidableEq, Repr

/-- The `fillna("")` step on a merged name column. -/
def fillnaName (s : Option String) : String :=
  match s with
  | some v => v
  | none => ""

/-- The function `add_calendar_features_to_traffic(traffic_df)`: both day-keyed
left merges followed by the NaN fills (and dropping the helper column). -/
def add_calendar_features_to_traffic (df : List MergedRow) : List EnrichedRow :=
  (mergeVacations (mergeHolidays df)).map (fun r =>
    { base := r.1
      holiday_name := fillnaName r.2.1
      is_holiday := r.2.1.isSome
      vacation_name := fillnaName r.2.2
      is_school_vacation := r.2.2.isSome })

/-! ## Theorems -/

set_option maxRecDepth 8000

lemma brusselsOffset_eq (t : Nat) : brusselsOffset t = 60 ∨ brusselsOffset t = 120 := by
  unfold brusselsOffset
  split
  · exact Or.inr rfl
  · exact Or.inl rfl

lemma localizeBrussels_utcToLocal (t : Nat)
    (h : ambiguousLocal (utcToLocal t) = false) :
    localizeBrussels (utcToLocal t) = some t := by
  rcases brusselsOffset_eq t with h60 | h120
  · have hn : utcToLocal t = t + 60 := by unfold utcToLocal; rw [h60]
    have hc : candValid t (t + 60) = true := by
      unfold candValid utcToLocal
      rw [h60]
      exact beq_self_eq_true _
    have hv1 : (decide (60 ≤ t + 60) && candValid (t + 60 - 60) (t + 60)) = true := by
      simp [hc, Nat.le_add_left]
    rw [hn] at h
    unfold ambiguousLocal at h
    rw [hv1] at h
    simp only [Bool.true_and] at h
    rw [hn]
    unfold localizeBrussels
    simp only [hv1, h, Bool.and_false, Bool.false_eq_true, if_false, if_true,
      Nat.add_sub_cancel]
    simp [hc, Nat.le_add_left]
  · have hn : utcToLocal t = t + 120 := by unfold utcToLocal; rw [h120]
    have hc : candValid t (t + 120) = true := by
      unfold candValid utcToLocal
      rw [h120]
      exact beq_self_eq_true _
    have hv2 : (decide (120 ≤ t + 120) && candValid (t + 120 - 120) (t + 120)) = true := by
      simp [hc, Nat.le_add_left]
    rw [hn] at h
    unfold ambiguousLocal at h
    rw [hv2] at h
    simp only [Bool.and_true] at h
    rw [hn]
    unfold localizeBrussels
    simp only [hv2, h, Bool.false_and, Bool.false_eq_true, if_false, if_true,
      Nat.add_sub_cancel]
    simp [hc, Nat.le_add_left]

/-- C1: in `merge_traffic_weather`, a tz-naive traffic timestamp is read as
UTC, a tz-naive weather timestamp is read as Europe/Brussels, and both are
converted to Europe/Brussels, so a naive UTC value and a naive local value
denoting the same real instant normalize to equal values and their rows
join — for every hour whose local wall-clock representation is unambiguous.
(At the daylight-saving fall-back transition the repeated local hour is
ambiguous and `tz_localize` raises instead; see the counterexample.) -/
theorem merge_tz_normalization_roundtrip (t : Nat) (c : Option Nat)
    (temp : Int) (p : Nat) (h : ambiguousLocal (utcToLocal t) = false) :
    localizeBrussels (utcToLocal t) = some (localizeUTC t) ∧
    merge_traffic_weather false false [⟨t, c⟩] [⟨utcToLocal t, temp, p⟩] =
      .ok [⟨⟨t, c⟩, some ⟨t, temp, p⟩⟩] := by
  have hl := localizeBrussels_utcToLocal t h
  refine ⟨hl, ?_⟩
  unfold merge_traffic_weather
  simp [hl, localizeUTC, leftJoinTW, localizeWeatherRows]

/-- Witness for C1 at the concrete hour 2025-07-15 12:00 UTC (a daylight-
saving hour, local 14:00). -/
theorem merge_tz_normalization_roundtrip_witness :
    localizeBrussels (utcToLocal (utcMinutes 2025 7 15 12 0)) =
      some (localizeUTC (utcMinutes 2025 7 15 12 0)) ∧
    merge_traffic_weather false false [⟨utcMinutes 2025 7 15 12 0, some 9⟩]
        [⟨utcToLocal (utcMinutes 2025 7 15 12 0), 185, 0⟩] =
      .ok [⟨⟨utcMinutes 2025 7 15 12 0, some 9⟩,
            some ⟨utcMinutes 2025 7 15 12 0, 185, 0⟩⟩] :=
  merge_tz_normalization_roundtrip (utcMinutes 2025 7 15 12 0) (some 9) 185 0
    (by decide)

/-- Counterexample for C1 as stated: at the 2025 fall-back transition the
instant 2025-10-26 00:00 UTC has the ambiguous local wall clock 02:00, and
localizing it raises (`none`) instead of producing an equal value, so the
claim fails for that hour and the merge of the two rows denoting that
instant errors rather than joining them. -/
theorem merge_tz_dst_fallback_cex :
    localizeBrussels (utcToLocal (utcMinutes 2025 10 26 0 0)) = none ∧
    localizeBrussels (utcToLocal (utcMinutes 2025 10 26 0 0)) ≠
      some (localizeUTC (utcMinutes 2025 10 26 0 0)) ∧
    merge_traffic_weather false false [⟨utcMinutes 2025 10 26 0 0, some 1⟩]
        [⟨utcToLocal (utcMinutes 2025 10 26 0 0), 150, 0⟩] =
      .error MergeExc.ambiguousTime :=
  ⟨by decide, by decide, by rfl⟩

lemma natMax_eq_right {a b : Nat} (h : a ≤ b) : Nat.max a b = b := max_eq_right h

lemma natMax_eq_left {a b : Nat} (h : b ≤ a) : Nat.max a b = a := max_eq_left h

lemma le_foldl_max (l : List Nat) : ∀ a : Nat, a ≤ l.foldl Nat.max a := by
  induction l with
  | nil => intro a; exact Nat.le_refl a
  | cons b bs ih =>
    intro a
    exact Nat.le_trans (Nat.le_max_left a b) (ih (Nat.max a b))

lemma mem_le_foldl_max (l : List Nat) :
    ∀ (a x : Nat), x ∈ l → x ≤ l.foldl Nat.max a := by
  induction l with
  | nil => intro a x hx; cases hx
  | cons b bs ih =>
    intro a x hx
    rcases List.mem_cons.mp hx with rfl | hx
    · exact Nat.le_trans (Nat.le_max_right a x) (le_foldl_max bs (Nat.max a x))
    · exact ih (Nat.max a b) x hx

lemma foldl_max_mem (l : List Nat) : ∀ a : Nat, l.foldl Nat.max a = a ∨ l.foldl Nat.max a ∈ l := by
  induction l with
  | nil => intro a; exact Or.inl rfl
  | cons b bs ih =>
    intro a
    rcases ih (Nat.max a b) with h | h
    · rw [List.foldl_cons, h]
      rcases Nat.le_total a b with hab | hab
      · exact Or.inr (by rw [natMax_eq_right hab]; exact List.mem_cons_self b bs)
      · exact Or.inl (natMax_eq_left hab)
    · exact Or.inr (List.mem_cons_of_mem b h)

lemma maxTs_mem (l : List Nat) (hl : l ≠ []) : maxTs l ∈ l := by
  match l with
  | [] => exact absurd rfl hl
  | b :: bs =>
    unfold maxTs
    rw [List.foldl_cons, natMax_eq_right (Nat.zero_le b)]
    rcases foldl_max_mem bs b with h | h
    · rw [h]; exact List.mem_cons_self b bs
    · exact List.mem_cons_of_mem b h

lemma maxTs_ge (l : List Nat) (x : Nat) (hx : x ∈ l) : x ≤ maxTs l :=
  mem_le_foldl_max l 0 x hx

lemma get_time_window_none (now : Nat) :
    get_time_window none now =
      if now - now % 60 ≤ projectStart then none
      else some (projectStart, now - now % 60) := rfl

lemma get_time_window_nil (now : Nat) :
    get_time_window (some []) now =
      if now - now % 60 ≤ projectStart then none
      else some (projectStart, now - now % 60) := rfl

lemma get_time_window_cons (now b : Nat) (bs : List Nat) :
    get_time_window (some (b :: bs)) now =
      if now - now % 60 ≤ maxTs (b :: bs) + 60 then none
      else some (maxTs (b :: bs) + 60, now - now % 60) := rfl

/-- C2: `get_time_window` starts from the fixed project epoch when the store
is empty or lacks a timestamp column, otherwise from the maximum stored
timestamp plus one hour; the end is the current wall clock truncated to the
hour; and when end ≤ start the window is empty (`None, None`) and the sync
call leaves the store untouched without erroring. -/
theorem get_time_window_spec (now : Nat) (l : List Nat) (hl : l ≠ []) :
    (projectStart < now - now % 60 →
      get_time_window none now = some (projectStart, now - now % 60) ∧
      get_time_window (some []) now = some (projectStart, now - now % 60)) ∧
    (maxTs l ∈ l ∧ ∀ x ∈ l, x ≤ maxTs l) ∧
    (maxTs l + 60 < now - now % 60 →
      get_time_window (some l) now = some (maxTs l + 60, now - now % 60)) ∧
    (now - now % 60 ≤ maxTs l + 60 → get_time_window (some l) now = none) ∧
    (∀ (existing : List SegRow) (resp : Nat → UpstreamResp SegRow),
      get_time_window (some (existing.map (·.date))) now = none →
      update_segment existing resp now = (existing, none)) := by
  refine ⟨?_, ⟨maxTs_mem l hl, maxTs_ge l⟩, ?_, ?_, ?_⟩
  · intro h
    rw [get_time_window_none, get_time_window_nil, if_neg (by omega)]
    exact ⟨rfl, rfl⟩
  · intro h
    match l, hl with
    | b :: bs, _ =>
      rw [get_time_window_cons, if_neg (by omega)]
  · intro h
    match l, hl with
    | b :: bs, _ =>
      rw [get_time_window_cons, if_pos (by omega)]
  · intro existing resp hw
    unfold update_segment
    rw [hw]

/-- Witness for C2: an empty store starts at the project epoch, and a store
whose maximum timestamp is 2025-11-10 08:00Z yields the start
2025-11-10 09:00Z; the end is the current hour boundary. -/
theorem get_time_window_spec_witness :
    get_time_window none (utcMinutes 2025 11 12 10 30) =
      some (projectStart, utcMinutes 2025 11 12 10 0) ∧
    get_time_window (some [utcMinutes 2025 11 10 8 0]) (utcMinutes 2025 11 12 10 30) =
      some (utcMinutes 2025 11 10 9 0, utcMinutes 2025 11 12 10 0) ∧
    update_segment [⟨utcMinutes 2025 11 10 8 0, 5⟩] (fun _ => .rate429)
      (utcMinutes 2025 11 10 8 30) = ([⟨utcMinutes 2025 11 10 8 0, 5⟩], none) := by
  have h := get_time_window_spec (utcMinutes 2025 11 12 10 30)
    [utcMinutes 2025 11 10 8 0] (by decide)
  have h2 := get_time_window_spec (utcMinutes 2025 11 10 8 30)
    [utcMinutes 2025 11 10 8 0] (by decide)
  refine ⟨?_, ?_, ?_⟩
  · have hx := (h.1 (by decide)).1
    rw [hx]
    decide
  · have hx := h.2.2.1 (by decide)
    rw [hx]
    decide
  · exact h2.2.2.2.2 [⟨utcMinutes 2025 11 10 8 0, 5⟩] (fun _ => .rate429) (by decide)

/-- C5: when every attempt is answered with HTTP 429, `fetch_segment` with
`max_retries = 3` issues exactly 3 HTTP calls, sleeps the linear backoff
5 s, 10 s, 15 s (5 × attempt), and returns an empty dataframe instead of
raising. -/
theorem fetch_rate_limited_gives_up {α : Type} (resp : Nat → UpstreamResp α)
    (h : ∀ n, resp n = .rate429) :
    fetch_segment resp 3 = ⟨3, [5, 10, 15], []⟩ := by
  simp [fetch_segment, fetchGo, h]

/-- Witness for C5: the constantly rate-limited upstream. -/
theorem fetch_rate_limited_gives_up_witness :
    fetch_segment (fun _ => (.rate429 : UpstreamResp SegRow)) 3 = ⟨3, [5, 10, 15], []⟩ :=
  fetch_rate_limited_gives_up (fun _ => .rate429) (fun _ => rfl)

/-- Counterexample for C9 as stated: an upstream that times out on the first
call and would have returned data on the second.  `fetch_segment` issues a
single call and returns the empty result — the timeout is not retried, so
"timeouts are retried up to the retry bound" fails. -/
theorem fetch_timeout_not_retried_cex :
    fetch_segment
        (fun n => if n = 1 then .timeout else .success [(⟨0, 1⟩ : SegRow)]) 3 =
      ⟨1, [], []⟩ ∧
    (fun n => if n = 1 then UpstreamResp.timeout
              else .success [(⟨0, 1⟩ : SegRow)]) 2 = .success [⟨0, 1⟩] :=
  ⟨by decide, by decide⟩

/-- C9 (amended): only rate-limit (429) responses are retried with backoff;
any other request failure — a timeout as well as an HTTP error status —
makes `fetch_segment` degrade to the empty "no new data" result right after
the failing attempt, without raising and without further retries. -/
theorem fetch_error_stops {α : Type} (resp : Nat → UpstreamResp α) (j : Nat)
    (hj : j < 3) (h429 : ∀ n, 1 ≤ n → n ≤ j → resp n = .rate429)
    (hstop : resp (j + 1) = .timeout ∨ resp (j + 1) = .httpError) :
    fetch_segment resp 3 =
      ⟨j + 1, (List.range j).map (fun i => 5 * (i + 1)), []⟩ := by
  match j, hj with
  | 0, _ =>
    rcases hstop with hs | hs <;> simp [fetch_segment, fetchGo, hs]
  | 1, _ =>
    have h1 := h429 1 (by omega) (by omega)
    rcases hstop with hs | hs <;>
      simp [fetch_segment, fetchGo, h1, hs, List.range_succ]
  | 2, _ =>
    have h1 := h429 1 (by omega) (by omega)
    have h2 := h429 2 (by omega) (by omega)
    rcases hstop with hs | hs <;>
      simp [fetch_segment, fetchGo, h1, h2, hs, List.range_succ]

/-- Witness for C9 (amended): one rate-limited attempt, then a timeout. -/
theorem fetch_error_stops_witness :
    fetch_segment
        (fun n => if n = 1 then .rate429 else (.timeout : UpstreamResp SegRow)) 3 =
      ⟨2, [5], []⟩ := by
  have h := fetch_error_stops
    (fun n => if n = 1 then .rate429 else (.timeout : UpstreamResp SegRow)) 1
    (by omega) (fun n h1 h2 => by interval_cases n; rfl) (Or.inl rfl)
  simpa using h

lemma dropDupByDate_spec (l : List SegRow) : ∀ seen : List Nat,
    ((dropDupByDate seen l).map (·.date)).Nodup ∧
    ∀ d ∈ (dropDupByDate seen l).map (·.date), d ∉ seen := by
  induction l with
  | nil => intro seen; exact ⟨List.nodup_nil, by simp [dropDupByDate]⟩
  | cons r rs ih =>
    intro seen
    unfold dropDupByDate
    by_cases hr : r.date ∈ seen
    · rw [if_pos hr]
      exact ih seen
    · rw [if_neg hr]
      obtain ⟨hnd, hdisj⟩ := ih (r.date :: seen)
      refine ⟨?_, ?_⟩
      · rw [List.map_cons, List.nodup_cons]
        exact ⟨fun hmem => (hdisj _ hmem) (List.mem_cons_self _ _), hnd⟩
      · intro d hd
        rw [List.map_cons, List.mem_cons] at hd
        rcases hd with rfl | hd
        · exact hr
        · exact fun hds => (hdisj d hd) (List.mem_cons_of_mem _ hds)

lemma store_dates_nodup (l : List SegRow) :
    ((sortByDate (dropDupByDate [] l)).map (·.date)).Nodup := by
  have hp : List.Perm ((sortByDate (dropDupByDate [] l)).map (fun r => r.date))
      ((dropDupByDate [] l).map (fun r => r.date)) :=
    (List.perm_insertionSort dateLE (dropDupByDate [] l)).map (fun r => r.date)
  exact hp.nodup_iff.mpr (dropDupByDate_spec l []).1

lemma store_dates_sorted (l : List SegRow) :
    List.Pairwise (· ≤ ·) ((sortByDate l).map (·.date)) := by
  have hs : List.Pairwise dateLE (sortByDate l) :=
    List.sorted_insertionSort dateLE l
  exact List.pairwise_map.mpr (hs.imp (fun h => h))

/-- C4: after a sync whose window is non-empty and whose fetch returned
rows, the rewritten store has at most one row per timestamp (first
occurrence kept — a deterministic policy), is sorted ascending by
timestamp, and equals the dedup-then-sort of existing + fetched rows; and
a sync whose fetch returns no new upstream data leaves the store
byte-identical (it is not rewritten at all). -/
theorem update_segment_store_invariants (existing : List SegRow)
    (resp : Nat → UpstreamResp SegRow) (now : Nat)
    (hw : get_time_window (some (existing.map (·.date))) now ≠ none)
    (hr : (fetch_segment resp 3).rows ≠ []) :
    (((update_segment existing resp now).1.map (·.date)).Nodup ∧
      List.Pairwise (· ≤ ·) ((update_segment existing resp now).1.map (·.date)) ∧
      (update_segment existing resp now).1 =
        sortByDate (dropDupByDate [] (existing ++ (fetch_segment resp 3).rows))) ∧
    (∀ (ex2 : List SegRow) (resp2 : Nat → UpstreamResp SegRow) (now2 : Nat),
      (fetch_segment resp2 3).rows = [] →
      update_segment ex2 resp2 now2 = (ex2, none)) := by
  constructor
  · have hupd : update_segment existing resp now =
        (sortByDate (dropDupByDate [] (existing ++ (fetch_segment resp 3).rows)),
          none) := by
      unfold update_segment
      split
      · exact absurd (by assumption) hw
      · rw [if_neg hr]
    rw [hupd]
    exact ⟨store_dates_nodup _, store_dates_sorted _, rfl⟩
  · intro ex2 resp2 now2 h0
    unfold update_segment
    split
    · rfl
    · rw [if_pos h0]

/-- Witness for C4: a store with rows at minutes 120 and 60, a fetch
returning rows at minutes 60 and 180 (keep-first drops the re-fetched 60),
and a second sync with an empty fetch result. -/
theorem update_segment_store_invariants_witness :
    (((update_segment [⟨120, 7⟩, ⟨60, 5⟩]
        (fun _ => .success [⟨60, 9⟩, ⟨180, 2⟩]) (utcMinutes 2025 11 12 10 30)).1.map
          (·.date)).Nodup ∧
      List.Pairwise (· ≤ ·)
        ((update_segment [⟨120, 7⟩, ⟨60, 5⟩]
          (fun _ => .success [⟨60, 9⟩, ⟨180, 2⟩]) (utcMinutes 2025 11 12 10 30)).1.map
            (·.date))) ∧
    update_segment [⟨60, 5⟩] (fun _ => .success []) (utcMinutes 2025 11 12 10 30) =
      ([⟨60, 5⟩], none) := by
  have h := update_segment_store_invariants [⟨120, 7⟩, ⟨60, 5⟩]
    (fun _ => .success [⟨60, 9⟩, ⟨180, 2⟩]) (utcMinutes 2025 11 12 10 30)
    (by decide) (by decide)
  exact ⟨⟨h.1.1, h.1.2.1⟩,
    h.2 [⟨60, 5⟩] (fun _ => .success []) (utcMinutes 2025 11 12 10 30) (by decide)⟩

/-- Counterexample for C8 as stated: on an already-up-to-date store the
window is empty and `update_segment` returns `None` — not the integer 0
the claim requires. -/
theorem update_segment_returns_none_cex :
    (update_segment [⟨utcMinutes 2025 11 10 8 0, 5⟩] (fun _ => .success [])
        (utcMinutes 2025 11 10 8 30)).2 ≠ some 0 ∧
    (update_segment [⟨utcMinutes 2025 11 10 8 0, 5⟩] (fun _ => .success [])
        (utcMinutes 2025 11 10 8 30)).2 = none :=
  ⟨by decide, by decide⟩

/-- C8 (amended): `update_segment` returns no value (Python `None`) on
every path — it prints its progress instead of returning a count — and on
the empty-window path it is a no-op that leaves the store unchanged and
does not error. -/
theorem update_segment_returns_none (existing : List SegRow)
    (resp : Nat → UpstreamResp SegRow) (now : Nat) :
    (update_segment existing resp now).2 = none ∧
    (get_time_window (some (existing.map (·.date))) now = none →
      update_segment existing resp now = (existing, none)) := by
  constructor
  · unfold update_segment
    split
    · rfl
    · split
      · rfl
      · rfl
  · intro h0
    unfold update_segment
    rw [h0]

/-- Witness for C8 (amended), at a store whose window is empty. -/
theorem update_segment_returns_none_witness :
    (update_segment [⟨utcMinutes 2025 11 10 8 0, 5⟩]
        (fun _ => (.rate429 : UpstreamResp SegRow)) (utcMinutes 2025 11 10 8 30)).2 =
      none ∧
    update_segment [⟨utcMinutes 2025 11 10 8 0, 5⟩]
        (fun _ => (.rate429 : UpstreamResp SegRow)) (utcMinutes 2025 11 10 8 30) =
      ([⟨utcMinutes 2025 11 10 8 0, 5⟩], none) := by
  have h := update_segment_returns_none [⟨utcMinutes 2025 11 10 8 0, 5⟩]
    (fun _ => (.rate429 : UpstreamResp SegRow)) (utcMinutes 2025 11 10 8 30)
  exact ⟨h.1, h.2 (by decide)⟩

lemma filter_key_le_one (ws : List WeatherRow) (d : Nat)
    (h : (ws.map (·.date)).Nodup) :
    (ws.filter (fun w => w.date == d)).length ≤ 1 := by
  induction ws with
  | nil => simp
  | cons w ws ih =>
    rw [List.map_cons, List.nodup_cons] at h
    by_cases hw : w.date = d
    · have hnil : ws.filter (fun x => x.date == d) = [] := by
        rw [List.filter_eq_nil_iff]
        intro y hy
        simp only [beq_iff_eq]
        intro hyd
        exact h.1 (List.mem_map.mpr ⟨y, hy, by rw [hyd, hw]⟩)
      rw [List.filter_cons_of_pos (by simp [hw]), hnil]
      simp
    · rw [List.filter_cons_of_neg (by simp [hw])]
      exact ih h.2

lemma len_le_one_cases {α : Type} (l : List α) (h : l.length ≤ 1) :
    l = [] ∨ ∃ x, l = [x] := by
  match l with
  | [] => exact Or.inl rfl
  | [x] => exact Or.inr ⟨x, rfl⟩
  | x :: y :: r => simp at h

lemma leftJoinTW_eq_map (weather : List WeatherRow)
    (hw : (weather.map (·.date)).Nodup) (traffic : List TrafficRow) :
    leftJoinTW weather traffic =
      traffic.map (fun t =>
        ⟨t, (weather.filter (fun w => w.date == t.date)).head?⟩) := by
  induction traffic with
  | nil => rfl
  | cons t ts ih =>
    unfold leftJoinTW
    rw [ih, List.map_cons]
    rcases len_le_one_cases _ (filter_key_le_one weather t.date hw) with hf | ⟨x, hf⟩
    · rw [hf]
      rfl
    · rw [hf]
      rfl

lemma merge_tt_ok (traffic : List TrafficRow) (weather : List WeatherRow)
    (ht : (traffic.map (·.date)).Nodup) (hw : (weather.map (·.date)).Nodup) :
    merge_traffic_weather true true traffic weather =
      .ok (traffic.map (fun t =>
        ⟨t, (weather.filter (fun w => w.date == t.date)).head?⟩)) := by
  show (if (traffic.map (·.date)).Nodup ∧ (weather.map (·.date)).Nodup then
          Except.ok (leftJoinTW weather traffic)
        else Except.error MergeExc.mergeErr) = _
  rw [if_pos ⟨ht, hw⟩, leftJoinTW_eq_map weather hw]

lemma dupDateCount_zero (m : List MergedRow) : ∀ seen : List Nat,
    (m.map (fun r => r.traffic.date)).Nodup →
    (∀ d ∈ m.map (fun r => r.traffic.date), d ∉ seen) →
    dupDateCount seen m = 0 := by
  induction m with
  | nil => intro seen _ _; rfl
  | cons r rs ih =>
    intro seen hnd hdisj
    rw [List.map_cons, List.nodup_cons] at hnd
    unfold dupDateCount
    rw [if_neg (hdisj r.traffic.date (by simp))]
    refine ih (r.traffic.date :: seen) hnd.2 ?_
    intro d hd hds
    rcases List.mem_cons.mp hds with rfl | hds
    · exact hnd.1 hd
    · exact hdisj d (List.mem_cons_of_mem _ hd) hds

lemma head_filter_isNone (weather : List WeatherRow) (d : Nat) :
    ((weather.filter (fun w => w.date == d)).head?).isNone =
      weather.all (fun w => w.date != d) := by
  induction weather with
  | nil => rfl
  | cons w ws ih =>
    by_cases hw : w.date = d
    · rw [List.filter_cons_of_pos (by simp [hw])]
      simp [hw]
    · rw [List.filter_cons_of_neg (by simp [hw]), List.all_cons]
      have hbne : (w.date != d) = true := by simp [hw]
      rw [hbne, Bool.true_and]
      exact ih

lemma missing_weather_count (weather : List WeatherRow) (traffic : List TrafficRow) :
    ((traffic.map (fun t =>
        (⟨t, (weather.filter (fun w => w.date == t.date)).head?⟩ : MergedRow))).filter
          (fun r => r.weather.isNone)).length =
      (traffic.filter (fun t => weather.all (fun w => w.date != t.date))).length := by
  induction traffic with
  | nil => rfl
  | cons t ts ih =>
    rw [List.map_cons, List.filter_cons, List.filter_cons]
    have hcond : (⟨t, (weather.filter (fun w => w.date == t.date)).head?⟩ :
        MergedRow).weather.isNone = weather.all (fun w => w.date != t.date) :=
      head_filter_isNone weather t.date
    by_cases hm : weather.all (fun w => w.date != t.date) = true
    · rw [hcond, hm, if_pos rfl, if_pos rfl]
      rw [List.length_cons, List.length_cons, ih]
    · rw [hcond]
      rw [if_neg hm, if_neg hm]
      exact ih

/-- C3: with well-keyed inputs the merge succeeds and validation returns a
report whose duplicate count is zero and whose missing-weather count just
counts unmatched hours — missing weather is a warning, not a failure; but
duplicate timestamps in the merge inputs make `merge_traffic_weather`
itself raise `MergeError` (its `validate="1:1"` check), so integrate
followed by validate does not complete on duplicated inputs. -/
theorem merge_validate_warnings (traffic : List TrafficRow)
    (weather : List WeatherRow) (ht : (traffic.map (·.date)).Nodup)
    (hw : (weather.map (·.date)).Nodup) :
    (∃ m, merge_traffic_weather true true traffic weather = .ok m ∧
      (validate_merged_data m).total_records = traffic.length ∧
      (validate_merged_data m).duplicate_dates = 0 ∧
      (validate_merged_data m).missing_weather =
        (traffic.filter (fun t => weather.all (fun w => w.date != t.date))).length) ∧
    (∀ (t2 : List TrafficRow) (w2 : List WeatherRow),
      ¬ (t2.map (·.date)).Nodup →
      merge_traffic_weather true true t2 w2 = .error .mergeErr) := by
  constructor
  · refine ⟨_, merge_tt_ok traffic weather ht hw, ?_, ?_, ?_⟩
    · exact List.length_map _ _
    · refine dupDateCount_zero _ [] ?_ (by simp)
      rw [List.map_map]
      simpa using ht
    · exact missing_weather_count weather traffic
  · intro t2 w2 hnd
    show (if (t2.map (·.date)).Nodup ∧ (w2.map (·.date)).Nodup then
            Except.ok (leftJoinTW w2 t2)
          else Except.error MergeExc.mergeErr) = _
    rw [if_neg (fun hc => hnd hc.1)]

/-- Witness for C3 (amended): a merge with one unmatched traffic hour
completes and validation reports the single missing-weather row. -/
theorem merge_validate_warnings_witness :
    (∃ m, merge_traffic_weather true true [⟨10, some 1⟩, ⟨20, some 2⟩]
        [⟨10, 50, 0⟩] = .ok m ∧
      (validate_merged_data m).total_records = 2 ∧
      (validate_merged_data m).duplicate_dates = 0 ∧
      (validate_merged_data m).missing_weather =
        (([⟨10, some 1⟩, ⟨20, some 2⟩] : List TrafficRow).filter
          (fun t => ([⟨10, 50, 0⟩] : List WeatherRow).all
            (fun w => w.date != t.date))).length) ∧
    merge_traffic_weather true true [⟨10, some 1⟩, ⟨20, some 2⟩] [⟨10, 50, 0⟩] =
      .ok [⟨⟨10, some 1⟩, some ⟨10, 50, 0⟩⟩, ⟨⟨20, some 2⟩, none⟩] := by
  have h := merge_validate_warnings [⟨10, some 1⟩, ⟨20, some 2⟩] [⟨10, 50, 0⟩]
    (by decide) (by decide)
  exact ⟨h.1, by rfl⟩

/-- Counterexample for C3 as stated: two traffic rows sharing one timestamp
make the 1:1-validated merge raise `MergeError` before any validation
report can be produced, so the pipeline does not complete on inputs with
duplicate timestamps. -/
theorem merge_duplicate_inputs_cex :
    merge_traffic_weather true true [⟨10, some 1⟩, ⟨10, some 2⟩] [] =
      .error MergeExc.mergeErr := by rfl

/-- C7: the traffic-weather merge is a left join on the normalized
timestamp — every traffic row appears in the merged output in order, and a
traffic row with no matching weather hour carries `none` (NaN) weather
fields rather than being dropped or zero-filled. -/
theorem merge_left_join_retains_traffic (traffic : List TrafficRow)
    (weather : List WeatherRow) (ht : (traffic.map (·.date)).Nodup)
    (hw : (weather.map (·.date)).Nodup) :
    ∃ m, merge_traffic_weather true true traffic weather = .ok m ∧
      m.map (fun r => r.traffic) = traffic ∧
      ∀ r ∈ m, (∀ w ∈ weather, w.date ≠ r.traffic.date) → r.weather = none := by
  refine ⟨_, merge_tt_ok traffic weather ht hw, ?_, ?_⟩
  · rw [List.map_map]
    exact List.map_id traffic
  · intro r hr hnone
    rw [List.mem_map] at hr
    obtain ⟨t, hts, rfl⟩ := hr
    show (weather.filter (fun w => w.date == t.date)).head? = none
    have hnil : weather.filter (fun w => w.date == t.date) = [] := by
      rw [List.filter_eq_nil_iff]
      intro w hwmem
      simp only [beq_iff_eq]
      exact hnone w hwmem
    rw [hnil]
    rfl

/-- Witness for C7: one traffic row at hour 10 and no weather rows — the
merged row exists with missing weather markers. -/
theorem merge_left_join_retains_traffic_witness :
    (∃ m, merge_traffic_weather true true [⟨10, some 1⟩] [] = .ok m ∧
      m.map (fun r => r.traffic) = [⟨10, some 1⟩] ∧
      ∀ r ∈ m, (∀ w ∈ ([] : List WeatherRow), w.date ≠ r.traffic.date) →
        r.weather = none) ∧
    merge_traffic_weather true true [⟨10, some 1⟩] [] =
      .ok [⟨⟨10, some 1⟩, none⟩] :=
  ⟨merge_left_join_retains_traffic [⟨10, some 1⟩] [] (by decide) (by decide),
    by rfl⟩

lemma holidays_keys_nodup : (create_holidays_dataframe.map (·.1)).Nodup := by
  decide

lemma vacations_keys_nodup :
    (create_school_vacations_dataframe.map (·.1)).Nodup := by
  decide

lemma calFilter_le_one (tbl : List (Nat × String))
    (h : (tbl.map (·.1)).Nodup) (d : Nat) :
    (tbl.filter (fun x => x.1 == d)).length ≤ 1 := by
  induction tbl with
  | nil => simp
  | cons x xs ih =>
    rw [List.map_cons, List.nodup_cons] at h
    by_cases hx : x.1 = d
    · have hnil : xs.filter (fun y => y.1 == d) = [] := by
        rw [List.filter_eq_nil_iff]
        intro y hy
        simp only [beq_iff_eq]
        intro hyd
        exact h.1 (List.mem_map.mpr ⟨y, hy, by rw [hyd, hx]⟩)
      rw [List.filter_cons_of_pos (by simp [hx]), hnil]
      simp
    · rw [List.filter_cons_of_neg (by simp [hx])]
      exact ih h.2

lemma key_mem_iff_filter_ne_nil (tbl : List (Nat × String)) (d : Nat) :
    d ∈ tbl.map (·.1) ↔ tbl.filter (fun x => x.1 == d) ≠ [] := by
  constructor
  · intro hd hnil
    rw [List.filter_eq_nil_iff] at hnil
    obtain ⟨x, hx, hxd⟩ := List.mem_map.mp hd
    exact hnil x hx (by simp [hxd])
  · intro hne
    obtain ⟨y, hy⟩ := List.exists_mem_of_ne_nil _ hne
    have hmf := List.mem_filter.mp hy
    exact List.mem_map.mpr ⟨y, hmf.1, by simpa using hmf.2⟩

lemma mem_mergeHolidays (df : List MergedRow) (p : MergedRow × Option String)
    (hp : p ∈ mergeHolidays df) :
    p.1 ∈ df ∧ (p.2.isSome = true ↔
      dateOnly p.1 ∈ create_holidays_dataframe.map (·.1)) := by
  induction df with
  | nil => cases hp
  | cons r rs ih =>
    unfold mergeHolidays at hp
    rcases List.mem_append.mp hp with hblk | htail
    · rcases len_le_one_cases _
          (calFilter_le_one create_holidays_dataframe holidays_keys_nodup
            (dateOnly r)) with hf | ⟨x, hf⟩
      · rw [hf] at hblk
        simp only [List.mem_singleton] at hblk
        subst hblk
        refine ⟨List.mem_cons_self _ _, ?_⟩
        rw [key_mem_iff_filter_ne_nil, hf]
        simp
      · rw [hf] at hblk
        simp only [List.map_cons, List.map_nil, List.mem_singleton] at hblk
        subst hblk
        refine ⟨List.mem_cons_self _ _, ?_⟩
        rw [key_mem_iff_filter_ne_nil, hf]
        simp
    · obtain ⟨h1, h2⟩ := ih htail
      exact ⟨List.mem_cons_of_mem _ h1, h2⟩

lemma mem_mergeVacations (l : List (MergedRow × Option String))
    (q : MergedRow × Option String × Option String) (hq : q ∈ mergeVacations l) :
    (q.1, q.2.1) ∈ l ∧ (q.2.2.isSome = true ↔
      dateOnly q.1 ∈ create_school_vacations_dataframe.map (·.1)) := by
  induction l with
  | nil => cases hq
  | cons r rs ih =>
    unfold mergeVacations at hq
    rcases List.mem_append.mp hq with hblk | htail
    · rcases len_le_one_cases _
          (calFilter_le_one create_school_vacations_dataframe vacations_keys_nodup
            (dateOnly r.1)) with hf | ⟨x, hf⟩
      · rw [hf] at hblk
        simp only [List.mem_singleton] at hblk
        subst hblk
        refine ⟨by simp, ?_⟩
        rw [key_mem_iff_filter_ne_nil, hf]
        simp
      · rw [hf] at hblk
        simp only [List.map_cons, List.map_nil, List.mem_singleton] at hblk
        subst hblk
        refine ⟨by simp, ?_⟩
        rw [key_mem_iff_filter_ne_nil, hf]
        simp
    · obtain ⟨h1, h2⟩ := ih htail
      exact ⟨List.mem_cons_of_mem _ h1, h2⟩

lemma mem_expandVacation (s e : Nat) (nm : String) (xd : Nat) (xn : String) :
    (xd, xn) ∈ expandVacation s e nm ↔ xn = nm ∧ s ≤ xd ∧ xd ≤ e := by
  unfold expandVacation
  constructor
  · intro hx
    obtain ⟨i, hi, heq⟩ := List.mem_map.mp hx
    rw [List.mem_range] at hi
    rw [Prod.mk.injEq] at heq
    exact ⟨heq.2.symm, by omega, by omega⟩
  · rintro ⟨rfl, hs, he⟩
    apply List.mem_map.mpr
    refine ⟨xd - s, by rw [List.mem_range]; omega, ?_⟩
    have hsd : s + (xd - s) = xd := by omega
    rw [hsd]

lemma mem_vacation_keys (d : Nat) :
    d ∈ create_school_vacations_dataframe.map (·.1) ↔
      ∃ v ∈ SCHOOL_VACATIONS_2025_2026, v.1 ≤ d ∧ d ≤ v.2.1 := by
  unfold create_school_vacations_dataframe
  constructor
  · intro hd
    obtain ⟨x, hxmem, hxd⟩ := List.mem_map.mp hd
    obtain ⟨s, hs, hxs⟩ := List.mem_flatten.mp hxmem
    obtain ⟨v, hv, rfl⟩ := List.mem_map.mp hs
    obtain ⟨_, h1, h2⟩ := (mem_expandVacation v.1 v.2.1 v.2.2 x.1 x.2).mp
      (by simpa using hxs)
    exact ⟨v, hv, by omega⟩
  · rintro ⟨v, hv, h1, h2⟩
    apply List.mem_map.mpr
    refine ⟨(d, v.2.2), ?_, rfl⟩
    apply List.mem_flatten.mpr
    exact ⟨expandVacation v.1 v.2.1 v.2.2, List.mem_map.mpr ⟨v, hv, rfl⟩,
      (mem_expandVacation v.1 v.2.1 v.2.2 d v.2.2).mpr ⟨rfl, h1, h2⟩⟩

/-- C6: calendar enrichment sets `is_holiday` exactly on the days listed in
the holiday table and `is_school_vacation` exactly on the days inside some
vacation range (inclusive endpoints); every other day gets both flags
`false` (missing calendar records default to false, never error). -/
theorem add_calendar_flags_correct (df : List MergedRow) (r : EnrichedRow)
    (hr : r ∈ add_calendar_features_to_traffic df) :
    (r.is_holiday = true ↔
      dateOnly r.base ∈ create_holidays_dataframe.map (·.1)) ∧
    (r.is_school_vacation = true ↔
      ∃ v ∈ SCHOOL_VACATIONS_2025_2026,
        v.1 ≤ dateOnly r.base ∧ dateOnly r.base ≤ v.2.1) := by
  unfold add_calendar_features_to_traffic at hr
  obtain ⟨q, hq, rfl⟩ := List.mem_map.mp hr
  obtain ⟨hq1, hq2⟩ := mem_mergeVacations _ q hq
  obtain ⟨_, hp2⟩ := mem_mergeHolidays _ _ hq1
  constructor
  · exact hp2
  · rw [← mem_vacation_keys]
    exact hq2

/-- Witness for C6: a record on 2025-12-25 (holiday and Christmas break)
and a record on 2025-03-15 (outside every table), with the enrichment
evaluated on both. -/
theorem add_calendar_flags_correct_witness :
    add_calendar_features_to_traffic
        [⟨⟨516120, some 1⟩, none⟩, ⟨⟨105720, some 2⟩, none⟩] =
      [⟨⟨⟨516120, some 1⟩, none⟩, "Christmas Day", true, "Christmas Break", true⟩,
       ⟨⟨⟨105720, some 2⟩, none⟩, "", false, "", false⟩] ∧
    ((⟨⟨⟨516120, some 1⟩, none⟩, "Christmas Day", true, "Christmas Break",
        true⟩ : EnrichedRow).is_holiday = true ↔
      dateOnly (⟨⟨516120, some 1⟩, none⟩ : MergedRow) ∈
        create_holidays_dataframe.map (·.1)) ∧
    ((⟨⟨⟨105720, some 2⟩, none⟩, "", false, "", false⟩ :
        EnrichedRow).is_school_vacation = true ↔
      ∃ v ∈ SCHOOL_VACATIONS_2025_2026,
        v.1 ≤ dateOnly (⟨⟨105720, some 2⟩, none⟩ : MergedRow) ∧
          dateOnly (⟨⟨105720, some 2⟩, none⟩ : MergedRow) ≤ v.2.1) := by
  refine ⟨by decide, ?_, ?_⟩
  · exact (add_calendar_flags_correct
      [⟨⟨516120, some 1⟩, none⟩, ⟨⟨105720, some 2⟩, none⟩] _ (by decide)).1
  · exact (add_calendar_flags_correct
      [⟨⟨516120, some 1⟩, none⟩, ⟨⟨105720, some 2⟩, none⟩] _ (by decide)).2

lemma mergeHolidays_length (df : List MergedRow) :
    (mergeHolidays df).length = df.length := by
  induction df with
  | nil => rfl
  | cons r rs ih =>
    unfold mergeHolidays
    rw [List.length_append, ih]
    rcases len_le_one_cases _
        (calFilter_le_one create_holidays_dataframe holidays_keys_nodup
          (dateOnly r)) with hf | ⟨x, hf⟩ <;>
      · rw [hf]
        simp [Nat.add_comm]

lemma mergeVacations_length (l : List (MergedRow × Option String)) :
    (mergeVacations l).length = l.length := by
  induction l with
  | nil => rfl
  | cons r rs ih =>
    unfold mergeVacations
    rw [List.length_append, ih]
    rcases len_le_one_cases _
        (calFilter_le_one create_school_vacations_dataframe vacations_keys_nodup
          (dateOnly r.1)) with hf | ⟨x, hf⟩ <;>
      · rw [hf]
        simp [Nat.add_comm]

/-- C10: `add_calendar_features_to_traffic` returns exactly one output row
per input row — no date occurs twice among the holiday keys and the
expanded vacation days are pairwise distinct, so both day-keyed left
merges are many-to-one and never duplicate records. -/
theorem add_calendar_preserves_length (df : List MergedRow) :
    (add_calendar_features_to_traffic df).length = df.length ∧
    (create_holidays_dataframe.map (·.1)).Nodup ∧
    (create_school_vacations_dataframe.map (·.1)).Nodup := by
  refine ⟨?_, holidays_keys_nodup, vacations_keys_nodup⟩
  unfold add_calendar_features_to_traffic
  rw [List.length_map, mergeVacations_length, mergeHolidays_length]

end Kortrijk
